import Mathlib

/-
Verification of the HuebnerCobolt06mld laser driver (huebner_cobolt06mld.py).

The driver is thin glue over a VISA transport: each method either writes one
ASCII command string or issues one query and coerces the reply.  We embed it
shallowly: numeric values are rationals (the idealised value model for the
Python floats the driver handles), the transport is abstracted as a trace of
actions (writes and queries), and the reply coercions int(...) / float(...)
are embedded as partial parsers returning Option.
-/

/-- An action performed on the VISA transport: a fire-and-forget write of a
command string, or a query (write then read one reply line). -/
inductive VisaAction where
  | write (cmd : String)
  | query (cmd : String)
deriving DecidableEq

/-- The open VISA resource returned by pyvisa ResourceManager.open_resource,
abstracted to the data the driver supplies when opening it. -/
structure Handle where
  resource_name : String
  read_termination : String
deriving DecidableEq

/-- The read termination the driver requests at construction. -/
def crlf : String := "\r\n"

/-- The driver entity: the five constructor-supplied fields plus the open
instrument handle, mirroring the attribute assignments in __init__. -/
structure HuebnerCobolt06mld where
  name : String
  address : String
  wavelength : ℚ
  max_power : ℚ
  max_current : ℚ
  instrument : Handle
deriving DecidableEq

/-- Embedding of __init__: opening the resource is delegated to the external
pyvisa layer, abstracted as openRes (taking the resource name and the
requested read termination).  If opening fails the whole construction fails
(none); otherwise the entity holds exactly the supplied fields. -/
def HuebnerCobolt06mld.mk_driver (openRes : String → String → Option Handle)
    (name address : String) (max_power max_current wavelength : ℚ) :
    Option HuebnerCobolt06mld :=
  match openRes address crlf with
  | none => none
  | some h =>
    some { name := name, address := address, wavelength := wavelength,
           max_power := max_power, max_current := max_current, instrument := h }

/- Numeric formatting: Python f-string fixed-point formatting, value:.Nf,
on the idealised rational value: scale by 10^N, round half to even, render
with exactly N fractional digits. -/

/-- Floor of a rational as an integer, computed by flooring division. -/
def floorQ (q : ℚ) : ℤ := q.num.fdiv q.den

/-- Round a rational to the nearest integer, ties to even (the rounding used
by fixed-point formatting of the value). -/
def roundHalfEven (q : ℚ) : ℤ :=
  if q - (floorQ q : ℚ) < 1/2 then floorQ q
  else if 1/2 < q - (floorQ q : ℚ) then floorQ q + 1
  else if floorQ q % 2 = 0 then floorQ q else floorQ q + 1

/-- Left-pad a string with zeros to the given length. -/
def padZeros (n : ℕ) (s : String) : String :=
  String.mk (List.replicate (n - s.length) '0') ++ s

/-- Fixed-point rendering of a nonnegative rational with d fractional
digits. -/
def formatFixedNonneg (d : ℕ) (q : ℚ) : String :=
  Nat.repr ((roundHalfEven (q * ((10 ^ d : ℕ) : ℚ))).toNat / 10 ^ d) ++ "." ++
    padZeros d (Nat.repr ((roundHalfEven (q * ((10 ^ d : ℕ) : ℚ))).toNat % 10 ^ d))

/-- Fixed-point rendering of a rational with d fractional digits, the
embedding of the Python format specifier .df. -/
def formatFixed (d : ℕ) (q : ℚ) : String :=
  if q < 0 then "-" ++ formatFixedNonneg d (-q) else formatFixedNonneg d q

/- Reply coercions.  int(s) and float(s) in the source strip surrounding
whitespace, accept an optional sign, and otherwise fail with a conversion
error, embedded here as none.  float accepts digits with an optional decimal
point and optional exponent; the non-finite spellings (inf, nan) fall
outside the rational value model and are not produced by the device. -/

/-- Accumulate a decimal digit string; none unless every character is a
digit. -/
def parseNatAux : ℕ → List Char → Option ℕ
  | acc, [] => some acc
  | acc, c :: cs =>
    if c.isDigit then parseNatAux (acc * 10 + (c.toNat - 48)) cs else none

/-- Parse a nonempty all-digit string as a natural number. -/
def parseNatDigits (l : List Char) : Option ℕ :=
  if l.isEmpty then none else parseNatAux 0 l

/-- Strip surrounding whitespace from a character list, as int(...) and
float(...) do on their argument. -/
def pyStrip (l : List Char) : List Char :=
  ((l.dropWhile (fun c => c.isWhitespace)).reverse.dropWhile
    (fun c => c.isWhitespace)).reverse

/-- Embedding of Python int(s): trimmed sign-and-digits, otherwise a
conversion failure. -/
def parsePyInt (s : String) : Option ℤ :=
  match pyStrip s.toList with
  | '+' :: rest => (parseNatDigits rest).map Int.ofNat
  | '-' :: rest => (parseNatDigits rest).map (fun n => -(n : ℤ))
  | l => (parseNatDigits l).map Int.ofNat

/-- Split off the leading run of digits. -/
def spanDigits : List Char → List Char × List Char
  | [] => ([], [])
  | c :: cs =>
    if c.isDigit then
      let p := spanDigits cs
      (c :: p.1, p.2)
    else ([], c :: cs)

/-- Value of a digit string. -/
def digitsToNat (l : List Char) : ℕ :=
  l.foldl (fun acc c => acc * 10 + (c.toNat - 48)) 0

/-- Parse the signed exponent part after the e of a float literal. -/
def parseExpPart (l : List Char) : Option ℤ :=
  match l with
  | '+' :: rest => (parseNatDigits rest).map Int.ofNat
  | '-' :: rest => (parseNatDigits rest).map (fun n => -(n : ℤ))
  | l => (parseNatDigits l).map Int.ofNat

/-- Scale a mantissa by a power of ten. -/
def applyExp (m : ℚ) (e : ℤ) : ℚ :=
  match e with
  | Int.ofNat n => m * ((10 ^ n : ℕ) : ℚ)
  | Int.negSucc n => m / ((10 ^ (n + 1) : ℕ) : ℚ)

/-- Parse an unsigned float literal: digits, optional fractional part,
optional exponent; at least one digit overall. -/
def parseUnsignedPyFloat (l : List Char) : Option ℚ :=
  let p := spanDigits l
  match p.2 with
  | [] => if p.1.isEmpty then none else some ((digitsToNat p.1 : ℕ) : ℚ)
  | '.' :: r2 =>
    let f := spanDigits r2
    if p.1.isEmpty && f.1.isEmpty then none
    else
      let mant : ℚ :=
        ((digitsToNat p.1 : ℕ) : ℚ) +
          ((digitsToNat f.1 : ℕ) : ℚ) / (((10 ^ f.1.length : ℕ) : ℚ))
      match f.2 with
      | [] => some mant
      | 'e' :: r4 => (parseExpPart r4).map (applyExp mant)
      | 'E' :: r4 => (parseExpPart r4).map (applyExp mant)
      | _ => none
  | 'e' :: r4 =>
    if p.1.isEmpty then none
    else (parseExpPart r4).map (applyExp ((digitsToNat p.1 : ℕ) : ℚ))
  | 'E' :: r4 =>
    if p.1.isEmpty then none
    else (parseExpPart r4).map (applyExp ((digitsToNat p.1 : ℕ) : ℚ))
  | _ => none

/-- Embedding of Python float(s): trimmed, optionally signed float literal,
otherwise a conversion failure. -/
def parsePyFloat (s : String) : Option ℚ :=
  match pyStrip s.toList with
  | '+' :: rest => parseUnsignedPyFloat rest
  | '-' :: rest => (parseUnsignedPyFloat rest).map Neg.neg
  | l => parseUnsignedPyFloat l

namespace HuebnerCobolt06mld

/- Each getter is embedded as a function of the device reply: it returns the
trace of transport actions the call performs together with the coerced
result.  Each setter and command returns just its trace. -/

/-- get_status: int(query("l?")). -/
def get_status (_d : HuebnerCobolt06mld) (reply : String) :
    List VisaAction × Option ℤ :=
  ([VisaAction.query "l?"], parsePyInt reply)

/-- set_status: write l followed by the status, only for status 0 or 1. -/
def set_status (_d : HuebnerCobolt06mld) (status : ℤ) : List VisaAction :=
  if status = 1 ∨ status = 0 then [VisaAction.write ("l" ++ toString status)]
  else []

/-- get_analog_modulation_state: int(query("games?")). -/
def get_analog_modulation_state (_d : HuebnerCobolt06mld) (reply : String) :
    List VisaAction × Option ℤ :=
  ([VisaAction.query "games?"], parsePyInt reply)

/-- set_analog_modulation_state: write sames followed by the value, only for
0 or 1. -/
def set_analog_modulation_state (_d : HuebnerCobolt06mld) (v : ℤ) :
    List VisaAction :=
  if v = 1 ∨ v = 0 then [VisaAction.write ("sames " ++ toString v)] else []

/-- get_digital_modulation_state: int(query("gdmes?")). -/
def get_digital_modulation_state (_d : HuebnerCobolt06mld) (reply : String) :
    List VisaAction × Option ℤ :=
  ([VisaAction.query "gdmes?"], parsePyInt reply)

/-- set_digital_modulation_state: write sames followed by the value, only
for 0 or 1 (the source interpolates into the same sames format string as
the analog setter). -/
def set_digital_modulation_state (_d : HuebnerCobolt06mld) (v : ℤ) :
    List VisaAction :=
  if v = 1 ∨ v = 0 then [VisaAction.write ("sames " ++ toString v)] else []

/-- get_power: float(query("p?")). -/
def get_power (_d : HuebnerCobolt06mld) (reply : String) :
    List VisaAction × Option ℚ :=
  ([VisaAction.query "p?"], parsePyFloat reply)

/-- set_power: write p followed by the .3f-formatted power, only when
0 <= power <= max_power. -/
def set_power (d : HuebnerCobolt06mld) (power : ℚ) : List VisaAction :=
  if 0 ≤ power ∧ power ≤ d.max_power then
    [VisaAction.write ("p " ++ formatFixed 3 power)]
  else []

/-- get_current: float(query("glc?")). -/
def get_current (_d : HuebnerCobolt06mld) (reply : String) :
    List VisaAction × Option ℚ :=
  ([VisaAction.query "glc?"], parsePyFloat reply)

/-- set_current: write slc followed by the .2f-formatted current, only when
0 <= current <= max_current. -/
def set_current (d : HuebnerCobolt06mld) (current : ℚ) : List VisaAction :=
  if 0 ≤ current ∧ current ≤ d.max_current then
    [VisaAction.write ("slc " ++ formatFixed 2 current)]
  else []

/-- get_operating_mode: query("gom?") returned raw. -/
def get_operating_mode (_d : HuebnerCobolt06mld) (reply : String) :
    List VisaAction × String :=
  ([VisaAction.query "gom?"], reply)

/-- get_interlock_state: query("ilk?") returned raw. -/
def get_interlock_state (_d : HuebnerCobolt06mld) (reply : String) :
    List VisaAction × String :=
  ([VisaAction.query "ilk?"], reply)

/-- get_operating_fault: query("f?") returned raw. -/
def get_operating_fault (_d : HuebnerCobolt06mld) (reply : String) :
    List VisaAction × String :=
  ([VisaAction.query "f?"], reply)

/-- get_serial_number: int(query("gsn?")). -/
def get_serial_number (_d : HuebnerCobolt06mld) (reply : String) :
    List VisaAction × Option ℤ :=
  ([VisaAction.query "gsn?"], parsePyInt reply)

/-- get_laser_head_operating_hours: float(query("hrs?")). -/
def get_laser_head_operating_hours (_d : HuebnerCobolt06mld) (reply : String) :
    List VisaAction × Option ℚ :=
  ([VisaAction.query "hrs?"], parsePyFloat reply)

/-- laser_on_force_autostart: write @cob1. -/
def laser_on_force_autostart (_d : HuebnerCobolt06mld) : List VisaAction :=
  [VisaAction.write "@cob1"]

/-- laser_off: write @cob0. -/
def laser_off (_d : HuebnerCobolt06mld) : List VisaAction :=
  [VisaAction.write "@cob0"]

/-- enter_constant_power_mode: write cp. -/
def enter_constant_power_mode (_d : HuebnerCobolt06mld) : List VisaAction :=
  [VisaAction.write "cp"]

/-- enter_constant_current_mode: write ci. -/
def enter_constant_current_mode (_d : HuebnerCobolt06mld) : List VisaAction :=
  [VisaAction.write "ci"]

/-- enter_modulation_mode: write em. -/
def enter_modulation_mode (_d : HuebnerCobolt06mld) : List VisaAction :=
  [VisaAction.write "em"]

/-- read_actual_output_power: float(query("pa?")). -/
def read_actual_output_power (_d : HuebnerCobolt06mld) (reply : String) :
    List VisaAction × Option ℚ :=
  ([VisaAction.query "pa?"], parsePyFloat reply)

/-- read_actual_laser_current: float(query("rlc")). -/
def read_actual_laser_current (_d : HuebnerCobolt06mld) (reply : String) :
    List VisaAction × Option ℚ :=
  ([VisaAction.query "rlc"], parsePyFloat reply)

/-- clear_fault: write cf. -/
def clear_fault (_d : HuebnerCobolt06mld) : List VisaAction :=
  [VisaAction.write "cf"]

end HuebnerCobolt06mld

/-- A handle as opened for the example address in the source file. -/
def hdl0 : Handle := { resource_name := "ASRL3", read_termination := crlf }

/-- A concrete driver instance matching the example at the bottom of the
source file: max power 0.08 W, max current 250 A, wavelength 514 nm. -/
def drv0 : HuebnerCobolt06mld :=
  { name := "laser", address := "ASRL3", wavelength := 514,
    max_power := 8/100, max_current := 250, instrument := hdl0 }

/-- A driver constructed with negative limits, which the constructor does not
validate. -/
def drvNeg : HuebnerCobolt06mld :=
  { name := "laser", address := "ASRL3", wavelength := 514,
    max_power := -1, max_current := -1, instrument := hdl0 }

/-- Rounding a rational that is already a natural number is the identity. -/
lemma roundHalfEven_natCast (m : ℕ) : roundHalfEven (m : ℚ) = (m : ℤ) := by
  unfold roundHalfEven floorQ
  rw [Rat.num_natCast, Rat.den_natCast, Nat.cast_one, Int.fdiv_one]
  norm_num

/-- Fixed-point formatting of a nonnegative rational whose scaling by 10^d is
the natural number m renders the decimal digits of m. -/
lemma formatFixed_eval (d m : ℕ) (q : ℚ) (h0 : 0 ≤ q)
    (h : q * ((10 ^ d : ℕ) : ℚ) = (m : ℚ)) :
    formatFixed d q =
      Nat.repr (m / 10 ^ d) ++ "." ++ padZeros d (Nat.repr (m % 10 ^ d)) := by
  unfold formatFixed formatFixedNonneg
  rw [if_neg (not_lt.mpr h0), h, roundHalfEven_natCast, Int.toNat_natCast]

/-- Claim C1: every setter given an out-of-range input (status or modulation
flag outside 0 and 1, power outside the interval from 0 to max_power, current
outside the interval from 0 to max_current) returns normally with an empty
transport trace: no command is sent and, the embedding being total, no error
is raised. -/
theorem setters_silently_ignore_out_of_range
    (d : HuebnerCobolt06mld) (s m : ℤ) (v c : ℚ)
    (hs : s ≠ 0 ∧ s ≠ 1) (hm : m ≠ 0 ∧ m ≠ 1)
    (hv : ¬(0 ≤ v ∧ v ≤ d.max_power)) (hc : ¬(0 ≤ c ∧ c ≤ d.max_current)) :
    d.set_status s = [] ∧ d.set_analog_modulation_state m = [] ∧
    d.set_digital_modulation_state m = [] ∧ d.set_power v = [] ∧
    d.set_current c = [] := by
  refine ⟨?_, ?_, ?_, if_neg hv, if_neg hc⟩ <;>
    simp [HuebnerCobolt06mld.set_status,
      HuebnerCobolt06mld.set_analog_modulation_state,
      HuebnerCobolt06mld.set_digital_modulation_state, hs.1, hs.2, hm.1, hm.2]

theorem setters_silently_ignore_out_of_range_witness :
    drv0.set_status 2 = [] ∧ drv0.set_analog_modulation_state 2 = [] ∧
    drv0.set_digital_modulation_state 2 = [] ∧ drv0.set_power 1 = [] ∧
    drv0.set_current 300 = [] :=
  setters_silently_ignore_out_of_range drv0 2 2 1 300 (by norm_num) (by norm_num)
    (by norm_num [drv0]) (by norm_num [drv0])

/-- Claim C2, counterexample: for the example driver (max power 0.08) and the
out-of-range power 2, set_power does not send the command carrying the
nearest in-range value 0.08; it sends nothing at all. -/
theorem set_power_no_clamp_counterexample :
    drv0.set_power 2 = [] ∧
    drv0.set_power 2 ≠ [VisaAction.write "p 0.080"] := by
  have h : drv0.set_power 2 = [] :=
    if_neg (by norm_num [drv0])
  exact ⟨h, by rw [h]; simp⟩

/-- Claim C2, amended: before transmission set_power and set_current check
the value against the valid range; an out-of-range input results in no
command being sent at all (the value is dropped, not clamped to the nearest
in-range value). -/
theorem out_of_range_values_dropped_not_clamped
    (d : HuebnerCobolt06mld) (v c : ℚ)
    (hv : ¬(0 ≤ v ∧ v ≤ d.max_power)) (hc : ¬(0 ≤ c ∧ c ≤ d.max_current)) :
    d.set_power v = [] ∧ d.set_current c = [] :=
  ⟨if_neg hv, if_neg hc⟩

theorem out_of_range_values_dropped_not_clamped_witness :
    drv0.set_power (-1) = [] ∧ drv0.set_current 300 = [] :=
  out_of_range_values_dropped_not_clamped drv0 (-1) 300 (by norm_num)
    (by norm_num [drv0])

/-- Claim C3: for every in-range power value, set_power sends exactly one
write of the command p followed by the value formatted with three decimal
places, and issues no query. -/
theorem set_power_in_range_sends_formatted (d : HuebnerCobolt06mld) (v : ℚ)
    (h0 : 0 ≤ v) (h1 : v ≤ d.max_power) :
    d.set_power v = [VisaAction.write ("p " ++ formatFixed 3 v)] :=
  if_pos ⟨h0, h1⟩

theorem set_power_in_range_sends_formatted_witness :
    drv0.set_power (3/100) = [VisaAction.write "p 0.030"] := by
  rw [set_power_in_range_sends_formatted drv0 (3/100) (by norm_num)
      (by norm_num [drv0]),
    formatFixed_eval 3 30 (3/100) (by norm_num) (by norm_num)]
  rfl

/-- Claim C4: for every in-range current value, set_current sends exactly one
write of the command slc followed by the value formatted with two decimal
places; for an out-of-range value it sends nothing. -/
theorem set_current_format_and_range (d : HuebnerCobolt06mld) (v : ℚ) :
    (0 ≤ v → v ≤ d.max_current →
      d.set_current v = [VisaAction.write ("slc " ++ formatFixed 2 v)]) ∧
    (¬(0 ≤ v ∧ v ≤ d.max_current) → d.set_current v = []) :=
  ⟨fun h0 h1 => if_pos ⟨h0, h1⟩, fun h => if_neg h⟩

theorem set_current_format_and_range_witness :
    drv0.set_current 125 = [VisaAction.write "slc 125.00"] ∧
    drv0.set_current 300 = [] := by
  constructor
  · rw [(set_current_format_and_range drv0 125).1 (by norm_num)
        (by norm_num [drv0]),
      formatFixed_eval 2 12500 125 (by norm_num) (by norm_num)]
    rfl
  · exact (set_current_format_and_range drv0 300).2 (by norm_num [drv0])

/-- Claim C5: set_digital_modulation_state and set_analog_modulation_state
are equal as functions of their argument, and on inputs 0 and 1 both write
the command sames followed by the value. -/
theorem modulation_setters_identical (d : HuebnerCobolt06mld) (v : ℤ) :
    d.set_digital_modulation_state v = d.set_analog_modulation_state v ∧
    ((v = 0 ∨ v = 1) →
      d.set_digital_modulation_state v =
        [VisaAction.write ("sames " ++ toString v)]) := by
  refine ⟨rfl, ?_⟩
  rintro (h | h) <;> subst h <;> rfl

theorem modulation_setters_identical_witness :
    drv0.set_digital_modulation_state 1 = drv0.set_analog_modulation_state 1 ∧
    drv0.set_digital_modulation_state 1 = [VisaAction.write "sames 1"] :=
  ⟨(modulation_setters_identical drv0 1).1,
   (modulation_setters_identical drv0 1).2 (Or.inr rfl)⟩

/-- Claim C6: every getter issues exactly one query with its fixed command
string, performs no write, and returns the device reply coerced to the
declared type (int, float, or the raw string) with no other transformation. -/
theorem getters_single_query_coerced (d : HuebnerCobolt06mld) (reply : String) :
    d.get_status reply = ([VisaAction.query "l?"], parsePyInt reply) ∧
    d.get_analog_modulation_state reply =
      ([VisaAction.query "games?"], parsePyInt reply) ∧
    d.get_digital_modulation_state reply =
      ([VisaAction.query "gdmes?"], parsePyInt reply) ∧
    d.get_power reply = ([VisaAction.query "p?"], parsePyFloat reply) ∧
    d.get_current reply = ([VisaAction.query "glc?"], parsePyFloat reply) ∧
    d.get_operating_mode reply = ([VisaAction.query "gom?"], reply) ∧
    d.get_interlock_state reply = ([VisaAction.query "ilk?"], reply) ∧
    d.get_operating_fault reply = ([VisaAction.query "f?"], reply) ∧
    d.get_serial_number reply = ([VisaAction.query "gsn?"], parsePyInt reply) ∧
    d.get_laser_head_operating_hours reply =
      ([VisaAction.query "hrs?"], parsePyFloat reply) ∧
    d.read_actual_output_power reply =
      ([VisaAction.query "pa?"], parsePyFloat reply) ∧
    d.read_actual_laser_current reply =
      ([VisaAction.query "rlc"], parsePyFloat reply) :=
  ⟨rfl, rfl, rfl, rfl, rfl, rfl, rfl, rfl, rfl, rfl, rfl, rfl⟩

/-- Claim C7: for every getter with a numeric return type and every reply
that does not parse as that type, the call has issued exactly its one query
and the coercion fails (the conversion failure propagates, modelled as a
none result). -/
theorem numeric_getters_propagate_parse_failure (d : HuebnerCobolt06mld)
    (ri rf : String) (hi : parsePyInt ri = none) (hf : parsePyFloat rf = none) :
    d.get_status ri = ([VisaAction.query "l?"], none) ∧
    d.get_analog_modulation_state ri = ([VisaAction.query "games?"], none) ∧
    d.get_digital_modulation_state ri = ([VisaAction.query "gdmes?"], none) ∧
    d.get_serial_number ri = ([VisaAction.query "gsn?"], none) ∧
    d.get_power rf = ([VisaAction.query "p?"], none) ∧
    d.get_current rf = ([VisaAction.query "glc?"], none) ∧
    d.get_laser_head_operating_hours rf = ([VisaAction.query "hrs?"], none) ∧
    d.read_actual_output_power rf = ([VisaAction.query "pa?"], none) ∧
    d.read_actual_laser_current rf = ([VisaAction.query "rlc"], none) := by
  simp [HuebnerCobolt06mld.get_status,
    HuebnerCobolt06mld.get_analog_modulation_state,
    HuebnerCobolt06mld.get_digital_modulation_state,
    HuebnerCobolt06mld.get_serial_number, HuebnerCobolt06mld.get_power,
    HuebnerCobolt06mld.get_current,
    HuebnerCobolt06mld.get_laser_head_operating_hours,
    HuebnerCobolt06mld.read_actual_output_power,
    HuebnerCobolt06mld.read_actual_laser_current, hi, hf]

theorem numeric_getters_propagate_parse_failure_witness :
    drv0.get_status "ERR" = ([VisaAction.query "l?"], none) ∧
    drv0.get_power "ERR" = ([VisaAction.query "p?"], none) :=
  ⟨(numeric_getters_propagate_parse_failure drv0 "ERR" "ERR" rfl rfl).1,
   (numeric_getters_propagate_parse_failure drv0 "ERR" "ERR" rfl rfl).2.2.2.2.1⟩

/-- Claim C8: if opening the transport resource at the supplied address
fails, the whole construction fails and no entity is produced; if it
succeeds, the entity holds exactly the supplied name, address, wavelength,
max_power and max_current. -/
theorem construction_all_or_nothing (openRes : String → String → Option Handle)
    (n a : String) (mp mc wl : ℚ) (h0 : Handle) :
    (openRes a crlf = none →
      HuebnerCobolt06mld.mk_driver openRes n a mp mc wl = none) ∧
    (openRes a crlf = some h0 →
      HuebnerCobolt06mld.mk_driver openRes n a mp mc wl =
        some { name := n, address := a, wavelength := wl, max_power := mp,
               max_current := mc, instrument := h0 }) := by
  refine ⟨fun h => ?_, fun h => ?_⟩ <;>
    unfold HuebnerCobolt06mld.mk_driver <;> rw [h]

theorem construction_all_or_nothing_witness :
    HuebnerCobolt06mld.mk_driver (fun _ _ => none) "laser" "ASRL3"
      (8/100) 250 514 = none ∧
    HuebnerCobolt06mld.mk_driver (fun _ _ => some hdl0) "laser" "ASRL3"
      (8/100) 250 514 =
      some { name := "laser", address := "ASRL3", wavelength := 514,
             max_power := 8/100, max_current := 250, instrument := hdl0 } :=
  ⟨(construction_all_or_nothing (fun _ _ => none) "laser" "ASRL3"
      (8/100) 250 514 hdl0).1 rfl,
   (construction_all_or_nothing (fun _ _ => some hdl0) "laser" "ASRL3"
      (8/100) 250 514 hdl0).2 rfl⟩

/-- Claim C9: the stored wavelength influences no behaviour after
construction: for any two drivers differing only in wavelength, every
operation produces the same transport trace and the same result. -/
theorem wavelength_noninterference (d : HuebnerCobolt06mld) (w v c : ℚ)
    (s : ℤ) (reply : String) :
    ({ d with wavelength := w } : HuebnerCobolt06mld).get_status reply =
      d.get_status reply ∧
    ({ d with wavelength := w } : HuebnerCobolt06mld).set_status s =
      d.set_status s ∧
    ({ d with wavelength := w } :
      HuebnerCobolt06mld).get_analog_modulation_state reply =
      d.get_analog_modulation_state reply ∧
    ({ d with wavelength := w } :
      HuebnerCobolt06mld).set_analog_modulation_state s =
      d.set_analog_modulation_state s ∧
    ({ d with wavelength := w } :
      HuebnerCobolt06mld).get_digital_modulation_state reply =
      d.get_digital_modulation_state reply ∧
    ({ d with wavelength := w } :
      HuebnerCobolt06mld).set_digital_modulation_state s =
      d.set_digital_modulation_state s ∧
    ({ d with wavelength := w } : HuebnerCobolt06mld).get_power reply =
      d.get_power reply ∧
    ({ d with wavelength := w } : HuebnerCobolt06mld).set_power v =
      d.set_power v ∧
    ({ d with wavelength := w } : HuebnerCobolt06mld).get_current reply =
      d.get_current reply ∧
    ({ d with wavelength := w } : HuebnerCobolt06mld).set_current c =
      d.set_current c ∧
    ({ d with wavelength := w } : HuebnerCobolt06mld).get_operating_mode reply =
      d.get_operating_mode reply ∧
    ({ d with wavelength := w } : HuebnerCobolt06mld).get_interlock_state reply =
      d.get_interlock_state reply ∧
    ({ d with wavelength := w } : HuebnerCobolt06mld).get_operating_fault reply =
      d.get_operating_fault reply ∧
    ({ d with wavelength := w } : HuebnerCobolt06mld).get_serial_number reply =
      d.get_serial_number reply ∧
    ({ d with wavelength := w } :
      HuebnerCobolt06mld).get_laser_head_operating_hours reply =
      d.get_laser_head_operating_hours reply ∧
    ({ d with wavelength := w } : HuebnerCobolt06mld).laser_on_force_autostart =
      d.laser_on_force_autostart ∧
    ({ d with wavelength := w } : HuebnerCobolt06mld).laser_off = d.laser_off ∧
    ({ d with wavelength := w } : HuebnerCobolt06mld).enter_constant_power_mode =
      d.enter_constant_power_mode ∧
    ({ d with wavelength := w } :
      HuebnerCobolt06mld).enter_constant_current_mode =
      d.enter_constant_current_mode ∧
    ({ d with wavelength := w } : HuebnerCobolt06mld).enter_modulation_mode =
      d.enter_modulation_mode ∧
    ({ d with wavelength := w } :
      HuebnerCobolt06mld).read_actual_output_power reply =
      d.read_actual_output_power reply ∧
    ({ d with wavelength := w } :
      HuebnerCobolt06mld).read_actual_laser_current reply =
      d.read_actual_laser_current reply ∧
    ({ d with wavelength := w } : HuebnerCobolt06mld).clear_fault =
      d.clear_fault :=
  ⟨rfl, rfl, rfl, rfl, rfl, rfl, rfl, rfl, rfl, rfl, rfl, rfl, rfl, rfl, rfl,
   rfl, rfl, rfl, rfl, rfl, rfl, rfl, rfl⟩

/-- Claim C10: construction does not validate the limit parameters: a driver
constructed with a negative max_power and max_current succeeds, and on such a
driver set_power and set_current send no command for any input value. -/
theorem negative_limits_make_setters_no_ops
    (openRes : String → String → Option Handle) (n a : String)
    (mp mc wl v : ℚ) (h0 : Handle) (drv : HuebnerCobolt06mld)
    (hopen : openRes a crlf = some h0)
    (hmk : HuebnerCobolt06mld.mk_driver openRes n a mp mc wl = some drv)
    (hmp : mp < 0) (hmc : mc < 0) :
    drv.set_power v = [] ∧ drv.set_current v = [] := by
  unfold HuebnerCobolt06mld.mk_driver at hmk
  rw [hopen] at hmk
  cases hmk
  constructor
  · refine if_neg ?_
    rintro ⟨hv0, hv1⟩
    exact absurd (le_trans hv0 hv1) (not_le.mpr hmp)
  · refine if_neg ?_
    rintro ⟨hv0, hv1⟩
    exact absurd (le_trans hv0 hv1) (not_le.mpr hmc)

theorem negative_limits_make_setters_no_ops_witness :
    drvNeg.set_power (5/100) = [] ∧ drvNeg.set_current (5/100) = [] :=
  negative_limits_make_setters_no_ops (fun _ _ => some hdl0) "laser" "ASRL3"
    (-1) (-1) 514 (5/100) hdl0 drvNeg rfl rfl (by norm_num) (by norm_num)
